import Mathlib

/-!
Verification development for the BTC signal engine (src/main.py).

The engine works on pandas float columns in which a value may be NaN
("undefined"); every NaN comparison is false and NaN propagates through
arithmetic.  We embed a possibly-NaN float as `Val := Option ℚ` (with
`none` playing the role of NaN), arithmetic as none-propagating
operations, and comparisons as `Bool`-valued functions that are false as
soon as one side is undefined — exactly the Python/NumPy behaviour the
source relies on.

Every division in the source is guarded by `.replace(0, nan)` on the
divisor, so a zero divisor never actually reaches a float division; the
embedded `vdiv` maps a zero divisor to `none` (the guarded branches are
unreachable in the embedded code paths, as in the source).
-/

/-- A possibly-undefined (NaN) numeric value, as produced by pandas. -/
abbrev Val := Option ℚ

/-- Strict less-than on possibly-NaN values: false if either side is NaN. -/
def vlt : Val → Val → Bool
  | some a, some b => decide (a < b)
  | _, _ => false

/-- Non-strict less-or-equal on possibly-NaN values: false if either side is NaN. -/
def vle : Val → Val → Bool
  | some a, some b => decide (a ≤ b)
  | _, _ => false

/-- Greater-than, `x > y` in the source. -/
def vgt (x y : Val) : Bool := vlt y x

/-- Greater-or-equal, `x >= y` in the source. -/
def vge (x y : Val) : Bool := vle y x

/-- NaN-propagating addition. -/
def vadd : Val → Val → Val
  | some a, some b => some (a + b)
  | _, _ => none

/-- NaN-propagating subtraction. -/
def vsub : Val → Val → Val
  | some a, some b => some (a - b)
  | _, _ => none

/-- NaN-propagating multiplication. -/
def vmul : Val → Val → Val
  | some a, some b => some (a * b)
  | _, _ => none

/-- NaN-propagating division; in the source every division is guarded by
`.replace(0, nan)` on the divisor, so the zero-divisor branch is
unreachable and we map it to undefined. -/
def vdiv : Val → Val → Val
  | some a, some b => if b = 0 then none else some (a / b)
  | _, _ => none

/-- Python builtin `max(x, y)`: keeps `x` unless `y > x`; hence
`max(nan, y) = nan` and `max(x, nan) = x`, like the source's target code. -/
def vmax (x y : Val) : Val := if vgt y x then y else x

/-- Python builtin `min(x, y)`: keeps `x` unless `y < x`. -/
def vmin (x y : Val) : Val := if vlt y x then y else x

/-- `series.replace(0, np.nan)` applied to one scalar. -/
def replace0nan (x : Val) : Val := if x = some 0 then none else x

-- ===================== CONFIG (src/main.py lines 19-32) =====================

def RSI_LEN_5 : ℕ := 14
def EMA_FAST_5 : ℕ := 9
def EMA_SLOW_5 : ℕ := 21
def ATR_LEN_5 : ℕ := 14
def SWING_LOOKBACK_5 : ℕ := 48
def ATR_TP_MULT : ℚ := 3/2
def ATR_SL_MULT : ℚ := 1
def VWAP_TOL : ℚ := 2/10
def RSI_LEN_1H : ℕ := 14
def EMA_FAST_1H : ℕ := 20
def EMA_SLOW_1H : ℕ := 50

-- ===================== ENRICHED ROWS =====================

/-- One enriched 5-minute row of `df5` after `indicators_5m`: the columns
read by `make_signal`.  Each column value may be NaN. -/
structure Row5 where
  close : Val
  rsi : Val
  ema9 : Val
  ema21 : Val
  vwap : Val
  atr : Val
  swingHigh : Val
  swingLow : Val
deriving DecidableEq, Repr

/-- One enriched 1-hour row of `df1h` after `indicators_1h`. -/
structure Row1h where
  emaFast : Val
  emaSlow : Val
  rsi : Val
deriving DecidableEq, Repr

/-- The tuple returned by `make_signal` (src/main.py lines 113-168), minus
the free-text `reason` string, whose float formatting we do not model.
`target`/`stop` are `Option Val`: the outer `none` is Python's `None`
(the NO SIGNAL case), while `some none` is a NaN number. -/
structure SignalResult where
  signal : String
  price : Val
  target : Option Val
  stop : Option Val
  rsi5 : Val
  ema9 : Val
  ema21 : Val
  vwap : Val
  atr : Val
  hourlyBull : Bool
  hourlyBear : Bool
  rsi1h : Val
deriving DecidableEq, Repr

/-- Index of `iloc[-1]`, the latest row. -/
def lastIdx {α : Type} (df : List α) : ℕ := df.length - 1

/-- Index of `iloc[ip]` with `ip = -2 if len(df5) > 1 else -1`
(src/main.py line 121). -/
def prevIdx {α : Type} (df : List α) : ℕ :=
  if 1 < df.length then df.length - 2 else df.length - 1

/-- Read a column of one row; out-of-range reads are undefined. -/
def col5 (f : Row5 → Val) (df : List Row5) (i : ℕ) : Val :=
  match df[i]? with
  | some r => f r
  | none => none

/-- Read a column of one 1h row; out-of-range reads are undefined. -/
def col1h (f : Row1h → Val) (df : List Row1h) (i : ℕ) : Val :=
  match df[i]? with
  | some r => f r
  | none => none

-- Scalar extraction, src/main.py lines 124-135.

def priceV (df5 : List Row5) : Val := col5 Row5.close df5 (lastIdx df5)

def prevCloseV (df5 : List Row5) : Val := col5 Row5.close df5 (prevIdx df5)

def rsi5V (df5 : List Row5) : Val := col5 Row5.rsi df5 (lastIdx df5)

def ema9V (df5 : List Row5) : Val := col5 Row5.ema9 df5 (lastIdx df5)

def ema21V (df5 : List Row5) : Val := col5 Row5.ema21 df5 (lastIdx df5)

def vwapV (df5 : List Row5) : Val := col5 Row5.vwap df5 (lastIdx df5)

def atrV (df5 : List Row5) : Val := col5 Row5.atr df5 (lastIdx df5)

def swingHighV (df5 : List Row5) : Val := col5 Row5.swingHigh df5 (lastIdx df5)

def swingLowV (df5 : List Row5) : Val := col5 Row5.swingLow df5 (lastIdx df5)

def emaFast1hV (df1h : List Row1h) : Val := col1h Row1h.emaFast df1h (lastIdx df1h)

def emaSlow1hV (df1h : List Row1h) : Val := col1h Row1h.emaSlow df1h (lastIdx df1h)

def rsi1hV (df1h : List Row1h) : Val := col1h Row1h.rsi df1h (lastIdx df1h)

/-- `hourly_bull = ema_fast_1h > ema_slow_1h` (line 138). -/
def hourlyBullB (df1h : List Row1h) : Bool := vgt (emaFast1hV df1h) (emaSlow1hV df1h)

/-- `hourly_bear = ema_fast_1h < ema_slow_1h` (line 139). -/
def hourlyBearB (df1h : List Row1h) : Bool := vlt (emaFast1hV df1h) (emaSlow1hV df1h)

/-- The BUY guard of src/main.py line 153:
`(rsi5 < 30) and (hourly_bull or rsi1h > 50) and (bullish_5 or ema9 >= ema21)
and vwap_ok_buy and tick_up`. -/
def buyCondB (df5 : List Row5) (df1h : List Row1h) : Bool :=
  vlt (rsi5V df5) (some 30) &&
  (hourlyBullB df1h || vgt (rsi1hV df1h) (some 50)) &&
  (vgt (ema9V df5) (ema21V df5) || vge (ema9V df5) (ema21V df5)) &&
  vge (priceV df5) (vsub (vwapV df5) (vmul (some VWAP_TOL) (atrV df5))) &&
  vgt (priceV df5) (prevCloseV df5)

/-- The SELL guard of src/main.py line 160:
`(rsi5 > 70) and (hourly_bear or rsi1h < 50) and (bearish_5 or ema9 <= ema21)
and vwap_ok_sell and tick_down`. -/
def sellCondB (df5 : List Row5) (df1h : List Row1h) : Bool :=
  vgt (rsi5V df5) (some 70) &&
  (hourlyBearB df1h || vlt (rsi1hV df1h) (some 50)) &&
  (vlt (ema9V df5) (ema21V df5) || vle (ema9V df5) (ema21V df5)) &&
  vle (priceV df5) (vadd (vwapV df5) (vmul (some VWAP_TOL) (atrV df5))) &&
  vlt (priceV df5) (prevCloseV df5)

/-- `make_signal(df5, df1h)` (src/main.py lines 113-168). -/
def make_signal (df5 : List Row5) (df1h : List Row1h) : SignalResult :=
  if buyCondB df5 df1h then
    { signal := "BUY"
      price := priceV df5
      target := some (vmax (swingHighV df5) (vadd (priceV df5) (vmul (some ATR_TP_MULT) (atrV df5))))
      stop := some (vsub (priceV df5) (vmul (some ATR_SL_MULT) (atrV df5)))
      rsi5 := rsi5V df5, ema9 := ema9V df5, ema21 := ema21V df5
      vwap := vwapV df5, atr := atrV df5
      hourlyBull := hourlyBullB df1h, hourlyBear := hourlyBearB df1h
      rsi1h := rsi1hV df1h }
  else if sellCondB df5 df1h then
    { signal := "SELL"
      price := priceV df5
      target := some (vmin (swingLowV df5) (vsub (priceV df5) (vmul (some ATR_TP_MULT) (atrV df5))))
      stop := some (vadd (priceV df5) (vmul (some ATR_SL_MULT) (atrV df5)))
      rsi5 := rsi5V df5, ema9 := ema9V df5, ema21 := ema21V df5
      vwap := vwapV df5, atr := atrV df5
      hourlyBull := hourlyBullB df1h, hourlyBear := hourlyBearB df1h
      rsi1h := rsi1hV df1h }
  else
    { signal := "NO SIGNAL"
      price := priceV df5
      target := none
      stop := none
      rsi5 := rsi5V df5, ema9 := ema9V df5, ema21 := ema21V df5
      vwap := vwapV df5, atr := atrV df5
      hourlyBull := hourlyBullB df1h, hourlyBear := hourlyBearB df1h
      rsi1h := rsi1hV df1h }

-- ===================== INDICATOR LIBRARY =====================

/-- One raw OHLCV bar; `day` is the UTC calendar-day key of its timestamp
(what `add_vwap` groups by), `opn` the Open column (unread by the core). -/
structure Bar where
  day : ℤ
  opn : ℚ
  high : ℚ
  low : ℚ
  close : ℚ
  volume : ℚ
deriving DecidableEq, Repr

/-- `close.diff()` at position `t`: NaN at position 0 and out of range. -/
def deltaAt (close : List ℚ) (t : ℕ) : Val :=
  if t = 0 then none
  else
    match close[t]?, close[t-1]? with
    | some c, some p => some (c - p)
    | _, _ => none

/-- `gain = delta.clip(lower=0.0)` at position `t`. -/
def gainAt (close : List ℚ) (t : ℕ) : Val :=
  (deltaAt close t).map (fun d => max d 0)

/-- `loss = -delta.clip(upper=0.0)` at position `t`. -/
def lossAt (close : List ℚ) (t : ℕ) : Val :=
  (deltaAt close t).map (fun d => max (-d) 0)

/-- `series.rolling(w).mean()` at position `t` for a series given
positionally by `f`: defined only when the window is full (`t+1 ≥ w`) and
every value in it is defined (pandas default `min_periods = window`). -/
def rollingMeanAt (f : ℕ → Val) (w t : ℕ) : Val :=
  if w = 0 then none
  else if t + 1 < w then none
  else if ((List.range w).map (fun k => f (t - k))).all Option.isSome then
    some ((((List.range w).map (fun k => f (t - k))).foldl (fun s v => s + v.getD 0) 0) / (w : ℚ))
  else none

/-- `avg_gain = gain.rolling(length).mean()` (src/main.py line 67). -/
def avgGainAt (close : List ℚ) (length t : ℕ) : Val :=
  rollingMeanAt (gainAt close) length t

/-- `avg_loss = loss.rolling(length).mean()` (src/main.py line 68). -/
def avgLossAt (close : List ℚ) (length t : ℕ) : Val :=
  rollingMeanAt (lossAt close) length t

/-- `rs = avg_gain / avg_loss.replace(0, np.nan)` (src/main.py line 69). -/
def rsAt (close : List ℚ) (length t : ℕ) : Val :=
  vdiv (avgGainAt close length t) (replace0nan (avgLossAt close length t))

/-- `compute_rsi(close, length)` at position `t`:
`100 - (100 / (1 + rs))` (src/main.py lines 63-70). -/
def compute_rsiAt (close : List ℚ) (length t : ℕ) : Val :=
  vsub (some 100) (vdiv (some 100) (vadd (some 1) (rsAt close length t)))

/-- Tail of `ewm(adjust=False).mean()` after the seed:
`y_t = alpha * x_t + (1 - alpha) * y_(t-1)`. -/
def ewmFrom (alpha prev : ℚ) : List ℚ → List ℚ
  | [] => []
  | x :: xs =>
    let y := alpha * x + (1 - alpha) * prev
    y :: ewmFrom alpha y xs

/-- `series.ewm(span, adjust=False).mean()` with `alpha` already computed
from the span; seeded by the first value. -/
def ewmList (alpha : ℚ) : List ℚ → List ℚ
  | [] => []
  | x :: xs => x :: ewmFrom alpha x xs

/-- `alpha = 2 / (span + 1)` for `ewm(span=...)`. -/
def emaAlpha (span : ℕ) : ℚ := 2 / ((span : ℚ) + 1)

/-- True range of the tail bars, given the previous bar:
`max(high - low, |high - prev_close|, |low - prev_close|)`. -/
def trRest (prev : Bar) : List Bar → List ℚ
  | [] => []
  | b :: bs =>
    max (b.high - b.low) (max |b.high - prev.close| |b.low - prev.close|) :: trRest b bs

/-- True-range series (src/main.py lines 74-80); at the first bar
`prev_close` is NaN and the row maximum skips it, leaving `high - low`. -/
def trList : List Bar → List ℚ
  | [] => []
  | b :: bs => (b.high - b.low) :: trRest b bs

/-- `compute_atr(df, length)` = `tr.ewm(span=length, adjust=False).mean()`
(src/main.py lines 72-81). -/
def compute_atr (bars : List Bar) (length : ℕ) : List ℚ :=
  ewmList (emaAlpha length) (trList bars)

/-- `(tp * volume)` resp. `volume` summed, `groupby(utc_dates).cumsum()`
style: over all positions `j ≤ i` whose bar shares the day of bar `i`. -/
def groupCumSum (f : Bar → ℚ) (bars : List Bar) (i : ℕ) : ℚ :=
  match bars[i]? with
  | none => 0
  | some bi => ((bars.take (i+1)).filter (fun b => b.day == bi.day)).foldl (fun s b => s + f b) 0

/-- Typical price `(High + Low + Close) / 3` (src/main.py line 90). -/
def typicalPrice (b : Bar) : ℚ := (b.high + b.low + b.close) / 3

/-- `add_vwap` (src/main.py lines 83-94) at position `i`:
`cum_pv / cum_v.replace(0, np.nan)` with day-grouped cumulative sums. -/
def vwapAt (bars : List Bar) (i : ℕ) : Val :=
  vdiv (some (groupCumSum (fun b => typicalPrice b * b.volume) bars i))
       (replace0nan (some (groupCumSum Bar.volume bars i)))

/-- Maximum of a list of rationals, `none` when empty. -/
def foldMax : List ℚ → Val
  | [] => none
  | x :: xs =>
    match foldMax xs with
    | none => some x
    | some m => some (max x m)

/-- Minimum of a list of rationals, `none` when empty. -/
def foldMin : List ℚ → Val
  | [] => none
  | x :: xs =>
    match foldMin xs with
    | none => some x
    | some m => some (min x m)

/-- `series.rolling(w).max()` at position `t` (full-window only). -/
def rollingMaxAt (xs : List ℚ) (w t : ℕ) : Val :=
  if w = 0 then none
  else if t + 1 < w then none
  else if xs.length ≤ t then none
  else foldMax ((xs.take (t+1)).drop (t + 1 - w))

/-- `series.rolling(w).min()` at position `t` (full-window only). -/
def rollingMinAt (xs : List ℚ) (w t : ℕ) : Val :=
  if w = 0 then none
  else if t + 1 < w then none
  else if xs.length ≤ t then none
  else foldMin ((xs.take (t+1)).drop (t + 1 - w))

/-- One enriched 5m row built by `indicators_5m` (src/main.py lines 96-104). -/
def mkRow5 (bars : List Bar) (t : ℕ) : Row5 :=
  { close := (bars.map Bar.close)[t]?
    rsi := compute_rsiAt (bars.map Bar.close) RSI_LEN_5 t
    ema9 := (ewmList (emaAlpha EMA_FAST_5) (bars.map Bar.close))[t]?
    ema21 := (ewmList (emaAlpha EMA_SLOW_5) (bars.map Bar.close))[t]?
    vwap := vwapAt bars t
    atr := (compute_atr bars ATR_LEN_5)[t]?
    swingHigh := rollingMaxAt (bars.map Bar.high) SWING_LOOKBACK_5 t
    swingLow := rollingMinAt (bars.map Bar.low) SWING_LOOKBACK_5 t }

/-- `indicators_5m(df5)` (src/main.py lines 96-104). -/
def indicators_5m (bars : List Bar) : List Row5 :=
  (List.range bars.length).map (mkRow5 bars)

/-- One enriched 1h row built by `indicators_1h` (src/main.py lines 106-110). -/
def mkRow1h (bars : List Bar) (t : ℕ) : Row1h :=
  { emaFast := (ewmList (emaAlpha EMA_FAST_1H) (bars.map Bar.close))[t]?
    emaSlow := (ewmList (emaAlpha EMA_SLOW_1H) (bars.map Bar.close))[t]?
    rsi := compute_rsiAt (bars.map Bar.close) RSI_LEN_1H t }

/-- `indicators_1h(df1h)` (src/main.py lines 106-110). -/
def indicators_1h (bars : List Bar) : List Row1h :=
  (List.range bars.length).map (mkRow1h bars)

/-- The core evaluation pipeline of `run()` (src/main.py lines 238-244):
enrich both frames, then decide.  This is the spec's
`evaluate(shortBars, longBars) → SignalRecord`. -/
def evaluate (bars5 bars1h : List Bar) : SignalResult :=
  make_signal (indicators_5m bars5) (indicators_1h bars1h)

-- ===================== DIGEST AGGREGATOR =====================

/-- One persisted row of the signal log read back by `hourly_digest`
(the columns it touches), timestamps as integer seconds UTC. -/
structure LogRow where
  timeUtc : ℤ
  signal : String
  price : Val
  target : Option Val
  stop : Option Val
  rsi5 : Val
  hourlyTrend : String
deriving DecidableEq, Repr

/-- The data of one rendered digest line (src/main.py lines 214-219);
text formatting of numbers is abstracted to the carried fields. -/
structure DigestLine where
  timeUtc : ℤ
  signal : String
  price : Val
  target : Option Val
  stop : Option Val
  hourlyTrend : String
  rsi5 : Val
deriving DecidableEq, Repr

/-- The digest text (src/main.py lines 195-227) in structured form: either
the "no alerts" message with its window bounds, or the header count plus
one line per trade and the window bounds. -/
inductive Digest where
  | noAlerts (windowStart windowEnd : ℤ)
  | lines (total : ℕ) (rows : List DigestLine) (windowStart windowEnd : ℤ)
deriving DecidableEq, Repr

/-- The fields of `r` printed by one digest line. -/
def mkLine (r : LogRow) : DigestLine :=
  { timeUtc := r.timeUtc, signal := r.signal, price := r.price
    target := r.target, stop := r.stop
    hourlyTrend := r.hourlyTrend, rsi5 := r.rsi5 }

/-- The locals `recent`/`trades` of `hourly_digest` (src/main.py lines
202-204): rows of the trailing hour whose signal is BUY or SELL. -/
def tradesIn (log : List LogRow) (now : ℤ) : List LogRow :=
  (log.filter (fun r => decide (now - 3600 ≤ r.timeUtc))).filter
    (fun r => r.signal == "BUY" || r.signal == "SELL")

/-- `hourly_digest(now_utc)` (src/main.py lines 195-227) over the record
rows read from the log; a missing log file and an empty frame both give
`None`.  The window is the trailing hour, `timedelta(hours=1)` = 3600 s. -/
def hourly_digest (log : List LogRow) (now : ℤ) : Option Digest :=
  if log.isEmpty then none
  else if (tradesIn log now).isEmpty then some (Digest.noAlerts (now - 3600) now)
  else some (Digest.lines (tradesIn log now).length ((tradesIn log now).map mkLine) (now - 3600) now)

-- ===================== HELPER LEMMAS =====================

lemma vlt_none_left (y : Val) : vlt none y = false := by cases y <;> rfl

lemma vlt_none_right (x : Val) : vlt x none = false := by cases x <;> rfl

lemma vle_none_left (y : Val) : vle none y = false := by cases y <;> rfl

lemma vle_none_right (x : Val) : vle x none = false := by cases x <;> rfl

lemma vlt_self (x : Val) : vlt x x = false := by
  cases x with
  | none => rfl
  | some a => simp [vlt]

lemma vadd_none_left (y : Val) : vadd none y = none := by cases y <;> rfl

lemma vadd_none_right (x : Val) : vadd x none = none := by cases x <;> rfl

lemma vsub_none_left (y : Val) : vsub none y = none := by cases y <;> rfl

lemma vsub_none_right (x : Val) : vsub x none = none := by cases x <;> rfl

lemma vmul_none_left (y : Val) : vmul none y = none := by cases y <;> rfl

lemma vmul_none_right (x : Val) : vmul x none = none := by cases x <;> rfl

lemma vdiv_none_left (y : Val) : vdiv none y = none := by cases y <;> rfl

lemma vdiv_none_right (x : Val) : vdiv x none = none := by cases x <;> rfl

lemma vadd_some_some (a b : ℚ) : vadd (some a) (some b) = some (a + b) := rfl

lemma vsub_some_some (a b : ℚ) : vsub (some a) (some b) = some (a - b) := rfl

lemma vmul_some_some (a b : ℚ) : vmul (some a) (some b) = some (a * b) := rfl

lemma vdiv_some_some (a b : ℚ) : vdiv (some a) (some b) = if b = 0 then none else some (a / b) := rfl

lemma vmax_some_some (a b : ℚ) : vmax (some a) (some b) = some (max a b) := by
  unfold vmax vgt vlt
  by_cases h : a < b
  · simp [h, max_eq_right h.le]
  · simp [h, max_eq_left (le_of_not_lt h)]

/-- In the fall-through branch, `make_signal` returns the NO SIGNAL record. -/
lemma make_signal_else (df5 : List Row5) (df1h : List Row1h)
    (hb : buyCondB df5 df1h = false) (hs : sellCondB df5 df1h = false) :
    (make_signal df5 df1h).signal = "NO SIGNAL" ∧ (make_signal df5 df1h).target = none ∧
      (make_signal df5 df1h).stop = none := by
  unfold make_signal
  rw [hb, hs]
  simp

/-- `target`/`stop` carry `None` exactly in the NO SIGNAL branch. -/
lemma make_signal_null_iff (df5 : List Row5) (df1h : List Row1h) :
    ((make_signal df5 df1h).target = none ↔ (make_signal df5 df1h).signal = "NO SIGNAL") ∧
    ((make_signal df5 df1h).stop = none ↔ (make_signal df5 df1h).signal = "NO SIGNAL") := by
  unfold make_signal
  by_cases hb : buyCondB df5 df1h = true
  · rw [if_pos hb]
    simp
  · rw [if_neg hb]
    by_cases hs : sellCondB df5 df1h = true
    · rw [if_pos hs]
      simp
    · rw [if_neg hs]
      exact ⟨iff_of_true rfl rfl, iff_of_true rfl rfl⟩

/-- A one-row short frame cannot tick up or down: the previous index
collapses onto the latest one, so both guards fail. -/
lemma make_signal_single (r : Row5) (df1h : List Row1h) :
    (make_signal [r] df1h).signal = "NO SIGNAL" ∧ (make_signal [r] df1h).target = none ∧
      (make_signal [r] df1h).stop = none := by
  have hp : priceV [r] = r.close := rfl
  have hpp : prevCloseV [r] = r.close := rfl
  have hb : buyCondB [r] df1h = false := by
    unfold buyCondB vgt
    rw [hp, hpp, vlt_self]
    simp
  have hs : sellCondB [r] df1h = false := by
    unfold sellCondB
    rw [hp, hpp, vlt_self]
    simp
  exact make_signal_else [r] df1h hb hs

-- ===================== CLAIM C10 =====================

/-- Claim C10: for a short-timeframe input of exactly one bar, `evaluate`
returns NO SIGNAL with null target and stop, regardless of every indicator
value: the previous close (`iloc[-1]` when the frame has one row) equals
the latest close, so neither tick condition can hold. -/
theorem evaluate_single_bar_no_signal (b : Bar) (bars1h : List Bar) :
    (evaluate [b] bars1h).signal = "NO SIGNAL" ∧ (evaluate [b] bars1h).target = none ∧
      (evaluate [b] bars1h).stop = none := by
  have h5 : indicators_5m [b] = [mkRow5 [b] 0] := rfl
  unfold evaluate
  rw [h5]
  exact make_signal_single (mkRow5 [b] 0) (indicators_1h bars1h)

-- ===================== CLAIM C8 =====================

/-- Claim C8: every record returned by `evaluate` has null target and stop
exactly when its signal kind is NO SIGNAL; BUY and SELL records always
carry (possibly-NaN) numeric target and stop values, never null. -/
theorem evaluate_target_stop_null_iff (bars5 bars1h : List Bar) :
    ((evaluate bars5 bars1h).target = none ↔ (evaluate bars5 bars1h).signal = "NO SIGNAL") ∧
    ((evaluate bars5 bars1h).stop = none ↔ (evaluate bars5 bars1h).signal = "NO SIGNAL") :=
  make_signal_null_iff (indicators_5m bars5) (indicators_1h bars1h)

-- ===================== CLAIM C7 =====================

/-- A bar violating the OHLC invariant: its high is below its low. -/
def mb1 : Bar := { day := 0, opn := 10, high := 5, low := 20, close := 10, volume := 1 }

/-- A second malformed bar of the same shape. -/
def mb2 : Bar := { day := 0, opn := 10, high := 5, low := 20, close := 12, volume := 1 }

/-- A well-formed 1h context bar. -/
def b1h : Bar := { day := 0, opn := 10, high := 12, low := 8, close := 10, volume := 1 }

/-- Claim C7 counterexample: on an input whose bars violate the OHLC
invariant (high 5 below low 20), `evaluate` does not reject the bars or
surface any data-quality error; it silently computes indicators from the
malformed values (note the negative ATR) and emits an ordinary record. -/
theorem malformed_bar_still_evaluated :
    mb1.high < mb1.low ∧
    evaluate [mb1, mb2] [b1h] =
      { signal := "NO SIGNAL", price := some 12, target := none, stop := none,
        rsi5 := none, ema9 := some (52/5), ema21 := some (112/11), vwap := some 12,
        atr := some (-35/3), hourlyBull := false, hourlyBear := false, rsi1h := none } := by
  constructor
  · decide
  · with_unfolding_all rfl

/-- Claim C7 (amended): `evaluate` is total over arbitrary bar sequences —
malformed bars included — and always emits one of the three record kinds;
there is no rejection or error path anywhere in the engine. -/
theorem evaluate_always_emits_record (bars5 bars1h : List Bar) :
    (evaluate bars5 bars1h).signal = "BUY" ∨ (evaluate bars5 bars1h).signal = "SELL" ∨
      (evaluate bars5 bars1h).signal = "NO SIGNAL" := by
  unfold evaluate make_signal
  by_cases hb : buyCondB (indicators_5m bars5) (indicators_1h bars1h) = true
  · rw [if_pos hb]
    exact Or.inl rfl
  · rw [if_neg hb]
    by_cases hs : sellCondB (indicators_5m bars5) (indicators_1h bars1h) = true
    · rw [if_pos hs]
      exact Or.inr (Or.inl rfl)
    · rw [if_neg hs]
      exact Or.inr (Or.inr rfl)

-- ===================== CLAIM C2 =====================

/-- Two enriched 5m rows in which every value the BUY guard reads is
defined and satisfies it, but the swing high is NaN. -/
def ex5c2 : List Row5 :=
  [{ close := some 99, rsi := some 0, ema9 := some 0, ema21 := some 0, vwap := some 0,
     atr := some 0, swingHigh := some 0, swingLow := some 0 },
   { close := some 100, rsi := some 25, ema9 := some 50, ema21 := some 50, vwap := some 100,
     atr := some 2, swingHigh := none, swingLow := some 0 }]

/-- A 1h row with a bullish trend. -/
def ex1hc2 : List Row1h := [{ emaFast := some 10, emaSlow := some 5, rsi := some 60 }]

/-- Claim C2 counterexample: an undefined swing high — an input the BUY
branch needs for its target — does not make the branch fall through to
NO SIGNAL: `make_signal` still returns BUY, with a NaN target. -/
theorem undefined_swing_high_still_buys :
    swingHighV ex5c2 = none ∧ (make_signal ex5c2 ex1hc2).signal = "BUY" ∧
      (make_signal ex5c2 ex1hc2).target = some none := by
  refine ⟨rfl, ?_, ?_⟩ <;> with_unfolding_all rfl

/-- Claim C2 (amended): only the inputs read by a branch guard make it
fall through when undefined: if the price, previous close, short RSI,
either 5m EMA, the VWAP or the ATR is NaN, both guards are false and the
result is NO SIGNAL with null target and stop.  An undefined swing
high/low affects only the emitted target, not whether the branch fires. -/
theorem undefined_condition_input_no_signal (df5 : List Row5) (df1h : List Row1h)
    (h : priceV df5 = none ∨ prevCloseV df5 = none ∨ rsi5V df5 = none ∨ ema9V df5 = none ∨
         ema21V df5 = none ∨ vwapV df5 = none ∨ atrV df5 = none) :
    (make_signal df5 df1h).signal = "NO SIGNAL" ∧ (make_signal df5 df1h).target = none ∧
      (make_signal df5 df1h).stop = none := by
  have hb : buyCondB df5 df1h = false := by
    unfold buyCondB vgt vge
    rcases h with h|h|h|h|h|h|h <;> rw [h] <;>
      simp [vlt_none_left, vlt_none_right, vle_none_left, vle_none_right,
            vmul_none_right, vsub_none_right, vsub_none_left]
  have hs : sellCondB df5 df1h = false := by
    unfold sellCondB vgt
    rcases h with h|h|h|h|h|h|h <;> rw [h] <;>
      simp [vlt_none_left, vlt_none_right, vle_none_left, vle_none_right,
            vmul_none_right, vadd_none_right, vadd_none_left]
  exact make_signal_else df5 df1h hb hs

/-- A 5m frame whose latest RSI is NaN (all other values defined). -/
def ex5nan : List Row5 :=
  [{ close := some 1, rsi := none, ema9 := some 1, ema21 := some 1, vwap := some 1,
     atr := some 1, swingHigh := some 1, swingLow := some 1 }]

/-- A fully-defined 1h frame. -/
def ex1hnan : List Row1h := [{ emaFast := some 1, emaSlow := some 1, rsi := some 1 }]

/-- Witness for the amended claim C2 at a concrete input with NaN RSI. -/
theorem undefined_condition_input_no_signal_witness :
    rsi5V ex5nan = none ∧
      ((make_signal ex5nan ex1hnan).signal = "NO SIGNAL" ∧
        (make_signal ex5nan ex1hnan).target = none ∧
        (make_signal ex5nan ex1hnan).stop = none) :=
  ⟨rfl, undefined_condition_input_no_signal ex5nan ex1hnan (Or.inr (Or.inr (Or.inl rfl)))⟩

-- ===================== CLAIM C4 =====================

/-- Claim C4 counterexample: over an empty record set `hourly_digest`
returns no digest at all (`None`, mirroring the early returns for a
missing or empty log), not the "no alerts" digest the claim requires. -/
theorem empty_log_gives_no_digest :
    hourly_digest ([] : List LogRow) 7200 ≠ some (Digest.noAlerts (7200 - 3600) 7200) ∧
      hourly_digest ([] : List LogRow) 7200 = none := by
  constructor
  · intro h
    exact Option.noConfusion h
  · rfl

/-- Claim C4 (amended): for a NON-empty record set none of whose BUY/SELL
records fall in the trailing hour, `hourly_digest` returns the "no alerts"
digest naming the window bounds `now - 1h` and `now`; for an empty record
set it returns no digest at all. -/
theorem hourly_digest_no_trades (log : List LogRow) (now : ℤ)
    (h1 : log ≠ [])
    (h2 : ∀ r ∈ log, r.signal = "BUY" ∨ r.signal = "SELL" → r.timeUtc < now - 3600) :
    hourly_digest log now = some (Digest.noAlerts (now - 3600) now) := by
  have he : log.isEmpty = false := List.isEmpty_eq_false.mpr h1
  have ht : tradesIn log now = [] := by
    unfold tradesIn
    apply List.filter_eq_nil_iff.mpr
    intro r hr
    obtain ⟨hrl, hrw⟩ := List.mem_filter.mp hr
    intro hsig
    have hor : r.signal = "BUY" ∨ r.signal = "SELL" := by
      rcases Bool.or_eq_true .. |>.mp hsig with hx | hx
      · exact Or.inl (eq_of_beq hx)
      · exact Or.inr (eq_of_beq hx)
    have := h2 r hrl hor
    have hw := of_decide_eq_true hrw
    omega
  unfold hourly_digest
  rw [he, ht]
  simp

/-- A one-row log whose only trade is an hour and a half old. -/
def exLogOld : List LogRow :=
  [{ timeUtc := 1000, signal := "BUY", price := some 10, target := some (some 12),
     stop := some (some 9), rsi5 := some 20, hourlyTrend := "bull" }]

/-- Witness for the amended claim C4: at `now = 7000` the trade at 1000
is outside the window `[3400, 7000]`, and the "no alerts" digest names
those bounds. -/
theorem hourly_digest_no_trades_witness :
    exLogOld ≠ [] ∧ hourly_digest exLogOld 7000 = some (Digest.noAlerts (7000 - 3600) 7000) :=
  ⟨by simp [exLogOld], hourly_digest_no_trades exLogOld 7000 (by simp [exLogOld]) (by decide)⟩

-- ===================== CLAIM C6 =====================

/-- The timestamps of the digest's summary lines, when a digest with a
line body was produced. -/
def digestTimes : Option Digest → Option (List ℤ)
  | some (Digest.lines _ rows _ _) => some (rows.map DigestLine.timeUtc)
  | some (Digest.noAlerts _ _) => some []
  | none => none

/-- A log whose two in-window BUY records are stored newest-first. -/
def exLogRev : List LogRow :=
  [{ timeUtc := 2000, signal := "BUY", price := some 10, target := some (some 12),
     stop := some (some 9), rsi5 := some 20, hourlyTrend := "bull" },
   { timeUtc := 1000, signal := "BUY", price := some 11, target := some (some 13),
     stop := some (some 10), rsi5 := some 21, hourlyTrend := "bull" }]

/-- Claim C6 counterexample: `hourly_digest` keeps the input (storage)
order of the records; on a log whose two qualifying records arrive
newest-first, the summary lines come out with timestamps 2000 then 1000 —
not ascending by timestamp as the claim requires. -/
theorem digest_lines_not_ascending :
    digestTimes (hourly_digest exLogRev 3600) = some [2000, 1000] ∧
      ¬ List.Pairwise (fun a b : ℤ => a ≤ b) [2000, 1000] := by
  constructor
  · rfl
  · intro h
    have := List.rel_of_pairwise_cons h (List.mem_singleton.mpr rfl)
    omega

/-- Claim C6 (amended): the digest body has exactly one line per BUY/SELL
record of the trailing hour, in the order the records appear in the input
sequence; the lines are ascending by timestamp whenever the input
sequence itself is (as it is for an append-ordered log), but the digest
performs no sorting of its own. -/
theorem hourly_digest_lines_ordered (log : List LogRow) (now : ℤ) (total : ℕ)
    (rows : List DigestLine) (ws we : ℤ)
    (hsorted : List.Pairwise (fun a b : LogRow => a.timeUtc ≤ b.timeUtc) log)
    (h : hourly_digest log now = some (Digest.lines total rows ws we)) :
    total = rows.length ∧ rows = (tradesIn log now).map mkLine ∧
      List.Pairwise (fun a b : DigestLine => a.timeUtc ≤ b.timeUtc) rows := by
  unfold hourly_digest at h
  by_cases he : log.isEmpty = true
  · rw [if_pos he] at h
    exact Option.noConfusion h
  rw [if_neg he] at h
  by_cases ht : (tradesIn log now).isEmpty = true
  · rw [if_pos ht] at h
    simp at h
  rw [if_neg ht] at h
  rw [Option.some_inj] at h
  injection h with h1 h2 h3 h4
  subst h1
  subst h2
  refine ⟨by simp, rfl, ?_⟩
  have hp : List.Pairwise (fun a b : LogRow => a.timeUtc ≤ b.timeUtc) (tradesIn log now) :=
    (hsorted.filter _).filter _
  exact hp.map mkLine (fun a b hab => hab)

/-- The log of `exLogRev` stored in append (chronological) order. -/
def exLogAsc : List LogRow :=
  [{ timeUtc := 1000, signal := "BUY", price := some 11, target := some (some 13),
     stop := some (some 10), rsi5 := some 21, hourlyTrend := "bull" },
   { timeUtc := 2000, signal := "BUY", price := some 10, target := some (some 12),
     stop := some (some 9), rsi5 := some 20, hourlyTrend := "bull" }]

/-- The two digest lines produced from `exLogAsc`. -/
def exRowsAsc : List DigestLine :=
  [{ timeUtc := 1000, signal := "BUY", price := some 11, target := some (some 13),
     stop := some (some 10), hourlyTrend := "bull", rsi5 := some 21 },
   { timeUtc := 2000, signal := "BUY", price := some 10, target := some (some 12),
     stop := some (some 9), hourlyTrend := "bull", rsi5 := some 20 }]

/-- Witness for the amended claim C6 on a chronologically stored log. -/
theorem hourly_digest_lines_ordered_witness :
    hourly_digest exLogAsc 3600 = some (Digest.lines 2 exRowsAsc 0 3600) ∧
      (2 = exRowsAsc.length ∧ exRowsAsc = (tradesIn exLogAsc 3600).map mkLine ∧
        List.Pairwise (fun a b : DigestLine => a.timeUtc ≤ b.timeUtc) exRowsAsc) :=
  ⟨by decide, hourly_digest_lines_ordered exLogAsc 3600 2 exRowsAsc 0 3600 (by decide) (by decide)⟩

-- ===================== CLAIM C5 =====================

/-- Day-grouped cumulative sums collapse to the single bar `b` when no
earlier bar shares its day. -/
lemma groupCumSum_first_of_day (f : Bar → ℚ) (bars : List Bar) (i : ℕ) (b : Bar)
    (hb : bars[i]? = some b)
    (hfirst : (bars.take i).all (fun bj => bj.day != b.day) = true) :
    groupCumSum f bars i = f b := by
  unfold groupCumSum
  rw [hb]
  dsimp only
  have htake : bars.take (i+1) = bars.take i ++ [b] := by
    rw [List.take_succ, hb]
    rfl
  rw [htake, List.filter_append]
  have hnil : (bars.take i).filter (fun x => x.day == b.day) = [] := by
    apply List.filter_eq_nil_iff.mpr
    intro a ha
    have hne := List.all_eq_true.mp hfirst a ha
    simp only [bne_iff_ne, ne_eq] at hne
    simp [hne]
  rw [hnil]
  simp

/-- Claim C5: VWAP is session-bounded to the UTC calendar day — at any bar
that is the first of its UTC day (no earlier bar shares its day key) with
non-zero volume, the VWAP equals that bar's typical price
`(high + low + close) / 3`, independent of all prior-day bars. -/
theorem vwap_first_bar_of_day (bars : List Bar) (i : ℕ) (b : Bar)
    (hb : bars[i]? = some b)
    (hfirst : (bars.take i).all (fun bj => bj.day != b.day) = true)
    (hvol : b.volume ≠ 0) :
    vwapAt bars i = some (typicalPrice b) := by
  unfold vwapAt
  rw [groupCumSum_first_of_day (fun x => typicalPrice x * x.volume) bars i b hb hfirst,
      groupCumSum_first_of_day Bar.volume bars i b hb hfirst]
  unfold replace0nan
  rw [if_neg (by simpa using hvol)]
  unfold vdiv
  simp only [if_neg hvol]
  rw [mul_div_cancel_right₀ _ hvol]

/-- Two bars on different UTC days. -/
def exBarsDay : List Bar :=
  [{ day := 0, opn := 10, high := 12, low := 8, close := 10, volume := 5 },
   { day := 1, opn := 10, high := 14, low := 10, close := 12, volume := 2 }]

/-- The first post-midnight bar of `exBarsDay`. -/
def exBarDay1 : Bar := { day := 1, opn := 10, high := 14, low := 10, close := 12, volume := 2 }

/-- Witness for claim C5: the second bar opens UTC day 1, and its VWAP is
exactly its typical price (14 + 10 + 12)/3 = 12, unblended with day 0. -/
theorem vwap_first_bar_of_day_witness :
    exBarsDay[1]? = some exBarDay1 ∧ vwapAt exBarsDay 1 = some (typicalPrice exBarDay1) :=
  ⟨rfl, vwap_first_bar_of_day exBarsDay 1 exBarDay1 rfl (by decide) (by norm_num [exBarDay1])⟩

-- ===================== CLAIM C3 =====================

/-- Folding `+ getD 0` over values that are all `some 0` is the identity. -/
lemma foldl_getD_all_zero (l : List Val) (init : ℚ) (hl : ∀ x ∈ l, x = some 0) :
    l.foldl (fun s v => s + v.getD 0) init = init := by
  induction l generalizing init with
  | nil => rfl
  | cons x xs ih =>
    rw [List.foldl_cons, hl x (List.mem_cons_self x xs)]
    simpa using ih (init + 0) (fun y hy => hl y (List.mem_cons_of_mem x hy))

/-- A full window of `some 0` values has rolling mean `some 0`. -/
lemma rollingMeanAt_all_zero (f : ℕ → Val) (w t : ℕ) (hw : w ≠ 0)
    (ht : ¬ t + 1 < w) (hz : ∀ k < w, f (t - k) = some 0) :
    rollingMeanAt f w t = some 0 := by
  unfold rollingMeanAt
  rw [if_neg hw, if_neg ht]
  have hmem : ∀ x ∈ (List.range w).map (fun k => f (t - k)), x = some 0 := by
    intro x hx
    obtain ⟨k, hk, rfl⟩ := List.mem_map.mp hx
    exact hz k (List.mem_range.mp hk)
  have hall : ((List.range w).map (fun k => f (t - k))).all Option.isSome = true := by
    apply List.all_eq_true.mpr
    intro x hx
    rw [hmem x hx]
    rfl
  rw [if_pos hall, foldl_getD_all_zero _ _ hmem]
  simp

/-- Claim C3 counterexample: with window length 2 at position 2 of the
strictly rising closes [1, 2, 3], both deltas of the trailing window are
gains (+1), yet the RSI is undefined (NaN) — not 100 as the claim states:
the zero average loss is replaced by NaN before the division. -/
theorem rsi_all_gains_not_100 :
    deltaAt [1, 2, 3] 1 = some 1 ∧ deltaAt [1, 2, 3] 2 = some 1 ∧
      compute_rsiAt [1, 2, 3] 2 2 = none ∧ compute_rsiAt [1, 2, 3] 2 2 ≠ some 100 := by
  refine ⟨by with_unfolding_all rfl, by with_unfolding_all rfl, by with_unfolding_all rfl, ?_⟩
  intro h
  rw [show compute_rsiAt [1, 2, 3] 2 2 = none by with_unfolding_all rfl] at h
  exact Option.noConfusion h

/-- Claim C3 (amended): at a position whose trailing window of `length`
deltas contains only gains (every delta defined and positive, hence zero
average loss), the RSI is undefined (NaN), by design of the
`replace(0, nan)` guard — not 100. -/
theorem rsi_all_gains_undefined (close : List ℚ) (length t : ℕ)
    (hw : 0 < length) (ht : length ≤ t)
    (hgain : ∀ k < length, ∃ d, deltaAt close (t - k) = some d ∧ 0 < d) :
    compute_rsiAt close length t = none := by
  have hloss : ∀ k < length, lossAt close (t - k) = some 0 := by
    intro k hk
    obtain ⟨d, hd, hdpos⟩ := hgain k hk
    unfold lossAt
    rw [hd]
    simp only [Option.map_some']
    rw [max_eq_right (by linarith)]
  have havg : avgLossAt close length t = some 0 :=
    rollingMeanAt_all_zero (lossAt close) length t (Nat.pos_iff_ne_zero.mp hw)
      (by omega) hloss
  unfold compute_rsiAt rsAt
  rw [havg]
  rw [show replace0nan (some 0) = none from rfl, vdiv_none_right, vadd_none_right,
      vdiv_none_right, vsub_none_right]

/-- Witness for the amended claim C3 at closes [1, 2, 3], length 2,
position 2. -/
theorem rsi_all_gains_undefined_witness :
    (∀ k < 2, ∃ d, deltaAt [1, 2, 3] (2 - k) = some d ∧ 0 < d) ∧
      compute_rsiAt [1, 2, 3] 2 2 = none := by
  have hg : ∀ k < 2, ∃ d, deltaAt [1, 2, 3] (2 - k) = some d ∧ 0 < d := by
    intro k hk
    interval_cases k
    · exact ⟨1, by with_unfolding_all rfl, by norm_num⟩
    · exact ⟨1, by with_unfolding_all rfl, by norm_num⟩
  exact ⟨hg, rsi_all_gains_undefined [1, 2, 3] 2 2 (by norm_num) (by norm_num) hg⟩

-- ===================== CLAIM C9 =====================

/-- Clipped gains are non-negative. -/
lemma gainAt_nonneg (close : List ℚ) (t : ℕ) (v : ℚ) (h : gainAt close t = some v) :
    0 ≤ v := by
  unfold gainAt at h
  rcases hd : deltaAt close t with _ | d
  · rw [hd] at h
    exact Option.noConfusion h
  · rw [hd] at h
    simp only [Option.map_some', Option.some_inj] at h
    rw [← h]
    exact le_max_right d 0

/-- Clipped losses are non-negative. -/
lemma lossAt_nonneg (close : List ℚ) (t : ℕ) (v : ℚ) (h : lossAt close t = some v) :
    0 ≤ v := by
  unfold lossAt at h
  rcases hd : deltaAt close t with _ | d
  · rw [hd] at h
    exact Option.noConfusion h
  · rw [hd] at h
    simp only [Option.map_some', Option.some_inj] at h
    rw [← h]
    exact le_max_right (-d) 0

/-- Folding `+ getD 0` over pointwise non-negative values keeps a
non-negative accumulator non-negative. -/
lemma foldl_getD_nonneg (l : List Val) (init : ℚ) (hinit : 0 ≤ init)
    (hl : ∀ x ∈ l, 0 ≤ x.getD 0) :
    0 ≤ l.foldl (fun s v => s + v.getD 0) init := by
  induction l generalizing init with
  | nil => simpa
  | cons x xs ih =>
    rw [List.foldl_cons]
    exact ih (init + x.getD 0)
      (add_nonneg hinit (hl x (List.mem_cons_self x xs)))
      (fun y hy => hl y (List.mem_cons_of_mem x hy))

/-- The rolling mean of a pointwise non-negative series is non-negative
wherever it is defined. -/
lemma rollingMeanAt_nonneg (f : ℕ → Val) (w t : ℕ) (m : ℚ)
    (hf : ∀ n v, f n = some v → 0 ≤ v) (h : rollingMeanAt f w t = some m) :
    0 ≤ m := by
  unfold rollingMeanAt at h
  split at h
  · exact Option.noConfusion h
  split at h
  · exact Option.noConfusion h
  split at h
  · rw [Option.some_inj] at h
    rw [← h]
    apply div_nonneg
    · apply foldl_getD_nonneg _ _ le_rfl
      intro x hx
      obtain ⟨k, -, rfl⟩ := List.mem_map.mp hx
      rcases hv : f (t - k) with _ | v
      · simp
      · simpa using hf (t - k) v hv
    · exact Nat.cast_nonneg w
  · exact Option.noConfusion h

/-- `rs = avg_gain / avg_loss.replace(0, nan)` is non-negative wherever
defined: both averages are non-negative and the divisor is non-zero. -/
lemma rsAt_nonneg (close : List ℚ) (length t : ℕ) (s : ℚ)
    (h : rsAt close length t = some s) : 0 ≤ s := by
  unfold rsAt at h
  rcases hg : avgGainAt close length t with _ | g
  · rw [hg, vdiv_none_left] at h
    exact Option.noConfusion h
  rcases hl : replace0nan (avgLossAt close length t) with _ | l
  · rw [hg, hl, vdiv_none_right] at h
    exact Option.noConfusion h
  rw [hg, hl] at h
  have hl' : avgLossAt close length t = some l ∧ l ≠ 0 := by
    unfold replace0nan at hl
    split at hl
    · exact Option.noConfusion hl
    · refine ⟨hl, ?_⟩
      intro h0
      rename_i hne
      rw [hl] at hne
      exact hne (by rw [h0])
  have hg0 : 0 ≤ g := rollingMeanAt_nonneg (gainAt close) length t g
    (gainAt_nonneg close) hg
  have hl0 : 0 ≤ l := rollingMeanAt_nonneg (lossAt close) length t l
    (lossAt_nonneg close) hl'.1
  rw [vdiv_some_some, if_neg hl'.2, Option.some_inj] at h
  rw [← h]
  exact div_nonneg hg0 hl0

/-- Claim C9: wherever the RSI is defined it lies in [0, 100]: it equals
`100 - 100/(1 + rs)` with `rs ≥ 0`. -/
theorem rsi_in_bounds (close : List ℚ) (length t : ℕ) (r : ℚ)
    (h : compute_rsiAt close length t = some r) : 0 ≤ r ∧ r ≤ 100 := by
  unfold compute_rsiAt at h
  rcases hs : rsAt close length t with _ | s
  · rw [hs, vadd_none_right, vdiv_none_right, vsub_none_right] at h
    exact Option.noConfusion h
  rw [hs] at h
  have hs0 : 0 ≤ s := rsAt_nonneg close length t s hs
  have h1s : (0 : ℚ) < 1 + s := by linarith
  rw [vadd_some_some, vdiv_some_some, if_neg (ne_of_gt h1s), vsub_some_some,
      Option.some_inj] at h
  have hdivpos : (0 : ℚ) < 100 / (1 + s) := div_pos (by norm_num) h1s
  have hdivle : 100 / (1 + s) ≤ 100 := by
    rw [div_le_iff₀ h1s]
    nlinarith
  constructor
  · rw [← h]
    linarith
  · rw [← h]
    linarith

/-- Witness for claim C9: for closes [2, 1] with window length 1 the RSI
at position 1 is defined and equals 0, inside [0, 100]. -/
theorem rsi_in_bounds_witness :
    compute_rsiAt [2, 1] 1 1 = some 0 ∧ ((0 : ℚ) ≤ 0 ∧ (0 : ℚ) ≤ 100) :=
  ⟨by with_unfolding_all rfl, rsi_in_bounds [2, 1] 1 1 0 (by with_unfolding_all rfl)⟩

-- ===================== CLAIM C1 =====================

/-- With all engine inputs defined, the BUY guard is the decidable
conjunction the claim states: `bullish_5 or ema9 >= ema21` collapses to
`ema9 ≥ ema21`. -/
lemma buyCondB_iff (df5 : List Row5) (df1h : List Row1h)
    (pq ppq r5q e9q e21q vwq aq efq esq r1q : ℚ)
    (hp : priceV df5 = some pq) (hpp : prevCloseV df5 = some ppq)
    (hr5 : rsi5V df5 = some r5q) (h9 : ema9V df5 = some e9q) (h21 : ema21V df5 = some e21q)
    (hvw : vwapV df5 = some vwq) (ha : atrV df5 = some aq)
    (hef : emaFast1hV df1h = some efq) (hes : emaSlow1hV df1h = some esq)
    (hr1 : rsi1hV df1h = some r1q) :
    (buyCondB df5 df1h = true ↔
      (r5q < 30 ∧ (efq > esq ∨ r1q > 50) ∧ e9q ≥ e21q ∧ pq ≥ vwq - (2/10) * aq ∧ pq > ppq)) := by
  unfold buyCondB hourlyBullB vgt vge
  rw [hp, hpp, hr5, h9, h21, hvw, ha, hef, hes, hr1]
  rw [vmul_some_some, vsub_some_some]
  simp only [vlt, vle, Bool.and_eq_true, Bool.or_eq_true, decide_eq_true_eq]
  unfold VWAP_TOL
  constructor
  · rintro ⟨⟨⟨⟨h1, h2⟩, h3⟩, h4⟩, h5⟩
    refine ⟨h1, h2, ?_, h4, h5⟩
    rcases h3 with h3 | h3
    · exact le_of_lt h3
    · exact h3
  · rintro ⟨h1, h2, h3, h4, h5⟩
    exact ⟨⟨⟨⟨h1, h2⟩, Or.inr h3⟩, h4⟩, h5⟩

/-- Claim C1: with every value read by the engine defined, `make_signal`
returns BUY exactly when `rsiShort < 30` and (`emaFastLong > emaSlowLong`
or `rsiLong > 50`) and `emaFast ≥ emaSlow` and
`price ≥ vwap - 0.2·atr` and `price > prevPrice`; and a BUY record carries
`target = max(swingHigh, price + 1.5·atr)` and `stop = price - 1.0·atr`. -/
theorem buy_signal_characterization (df5 : List Row5) (df1h : List Row1h)
    (pq ppq r5q e9q e21q vwq aq shq slq efq esq r1q : ℚ)
    (hp : priceV df5 = some pq) (hpp : prevCloseV df5 = some ppq)
    (hr5 : rsi5V df5 = some r5q) (h9 : ema9V df5 = some e9q) (h21 : ema21V df5 = some e21q)
    (hvw : vwapV df5 = some vwq) (ha : atrV df5 = some aq)
    (hsh : swingHighV df5 = some shq) (hsl : swingLowV df5 = some slq)
    (hef : emaFast1hV df1h = some efq) (hes : emaSlow1hV df1h = some esq)
    (hr1 : rsi1hV df1h = some r1q) :
    ((make_signal df5 df1h).signal = "BUY" ↔
      (r5q < 30 ∧ (efq > esq ∨ r1q > 50) ∧ e9q ≥ e21q ∧ pq ≥ vwq - (2/10) * aq ∧ pq > ppq)) ∧
    ((make_signal df5 df1h).signal = "BUY" →
      (make_signal df5 df1h).target = some (some (max shq (pq + (3/2) * aq))) ∧
      (make_signal df5 df1h).stop = some (some (pq - 1 * aq))) := by
  have hb := buyCondB_iff df5 df1h pq ppq r5q e9q e21q vwq aq efq esq r1q
    hp hpp hr5 h9 h21 hvw ha hef hes hr1
  by_cases hcond : buyCondB df5 df1h = true
  · have hsig : (make_signal df5 df1h).signal = "BUY" := by
      unfold make_signal
      rw [if_pos hcond]
    refine ⟨iff_of_true hsig (hb.mp hcond), fun _ => ?_⟩
    constructor
    · show (make_signal df5 df1h).target = _
      unfold make_signal
      rw [if_pos hcond]
      show some (vmax (swingHighV df5) (vadd (priceV df5) (vmul (some ATR_TP_MULT) (atrV df5)))) = _
      rw [hsh, hp, ha]
      unfold ATR_TP_MULT
      rw [vmul_some_some, vadd_some_some, vmax_some_some]
    · show (make_signal df5 df1h).stop = _
      unfold make_signal
      rw [if_pos hcond]
      show some (vsub (priceV df5) (vmul (some ATR_SL_MULT) (atrV df5))) = _
      rw [hp, ha]
      unfold ATR_SL_MULT
      rw [vmul_some_some, vsub_some_some]
  · have hsig : (make_signal df5 df1h).signal ≠ "BUY" := by
      unfold make_signal
      rw [if_neg hcond]
      by_cases hs : sellCondB df5 df1h = true
      · rw [if_pos hs]
        simp
      · rw [if_neg hs]
        simp
    refine ⟨iff_of_false hsig (fun hc => hcond (hb.mpr hc)), fun hc => absurd hc hsig⟩

/-- A fully-defined two-row 5m frame meeting the BUY conditions. -/
def ex5w : List Row5 :=
  [{ close := some 99, rsi := some 28, ema9 := some 49, ema21 := some 49, vwap := some 99,
     atr := some 2, swingHigh := some 103, swingLow := some 90 },
   { close := some 100, rsi := some 25, ema9 := some 50, ema21 := some 50, vwap := some 100,
     atr := some 2, swingHigh := some 104, swingLow := some 90 }]

/-- A fully-defined bullish 1h frame. -/
def ex1hw : List Row1h := [{ emaFast := some 10, emaSlow := some 5, rsi := some 60 }]

/-- Witness for claim C1 at a concrete fully-defined input. -/
theorem buy_signal_characterization_witness :
    ((make_signal ex5w ex1hw).signal = "BUY" ↔
      ((25 : ℚ) < 30 ∧ ((10 : ℚ) > 5 ∨ (60 : ℚ) > 50) ∧ (50 : ℚ) ≥ 50 ∧
        (100 : ℚ) ≥ 100 - (2/10) * 2 ∧ (100 : ℚ) > 99)) ∧
    ((make_signal ex5w ex1hw).signal = "BUY" →
      (make_signal ex5w ex1hw).target = some (some (max 104 (100 + (3/2) * 2))) ∧
      (make_signal ex5w ex1hw).stop = some (some (100 - 1 * 2))) :=
  buy_signal_characterization ex5w ex1hw 100 99 25 50 50 100 2 104 90 10 5 60
    rfl rfl rfl rfl rfl rfl rfl rfl rfl rfl rfl rfl
